import Mathlib

/-!
A shallow embedding of the event-delivery core of this repository, covering:

* the GCP Chronicle unstructured-log sink
  (`src/sinks/gcp/chronicle_unstructured.rs`): endpoint selection, the
  per-batch JSON encoder, request splitting/building, and the HTTP delivery
  service;
* the GELF deserializer (`lib/codecs/src/decoding/format/gelf.rs`);
* the `vector` source v1 frame deserializer (`src/sources/vector/v1.rs`).

Pure functions of the source become Lean functions; fallible code returns
`Except`/`Option`; external collaborators (the pluggable codec encoder, the
transformer, the authenticator, serde/prost parsing) are passed in as
function parameters or modelled explicitly with a note in the doc comment.
-/

namespace Chronicle

/-- `Region` from `chronicle_unstructured.rs`: the named Chronicle regions. -/
inductive Region where
  | Eu
  | Us
  | Asia
deriving DecidableEq, Repr

/-- `Region::endpoint`: each region has its own endpoint. -/
def Region.endpoint : Region → String
  | .Eu => "https://europe-malachiteingestion-pa.googleapis.com"
  | .Us => "https://malachiteingestion-pa.googleapis.com"
  | .Asia => "https://asia-southeast1-malachiteingestion-pa.googleapis.com"

/-- `ChronicleError` from `chronicle_unstructured.rs`. -/
inductive ChronicleError where
  | RegionOrEndpoint
  | BothRegionAndEndpoint
deriving DecidableEq, Repr

/-- The configuration fields of `ChronicleUnstructuredConfig` that the
endpoint/encoding logic reads.  The remaining fields (`auth`, `batch`,
`encoding`, `request`, `tls`, `acknowledgements`) configure external
collaborators and are not consulted by the functions embedded here. -/
structure ChronicleUnstructuredConfig where
  endpoint : Option String
  region : Option Region
  customer_id : String
  log_type : String
deriving DecidableEq, Repr

/-- Rust's `str::trim_end_matches` specialised to a single `char` pattern:
removes every trailing occurrence of `c`. -/
def trimEndMatches (s : String) (c : Char) : String :=
  ((s.toList.reverse.dropWhile (fun ch => ch == c)).reverse).asString

/-- `ChronicleUnstructuredConfig::create_endpoint`: formats
`"{}/{}"` of the selected base and `path`, where the base is the literal
`endpoint` with trailing `'/'` trimmed, or the named region's endpoint;
providing both or neither is an error. -/
def create_endpoint (config : ChronicleUnstructuredConfig) (path : String) :
    Except ChronicleError String :=
  match config.endpoint, config.region with
  | some endpoint, Option.none => .ok (trimEndMatches endpoint '/' ++ "/" ++ path)
  | Option.none, some region => .ok (region.endpoint ++ "/" ++ path)
  | some _, some _ => .error ChronicleError.BothRegionAndEndpoint
  | Option.none, Option.none => .error ChronicleError.RegionOrEndpoint

/-- An outbound HTTP request as assembled by this sink: method, URI, the
header list in insertion order, and the body bytes (bytes modelled as a
`String`; byte length is its UTF-8 size). -/
structure HttpRequest where
  method : String
  uri : String
  headers : List (String × String)
  body : String
deriving DecidableEq, Repr

/-- Modelled from the spec: the Authenticator collaborator
(`GcpAuthenticator::apply`, not under `src/`) "mutates an outbound transport
request with credentials"; we model it as appending an authorization header,
leaving method, URI, body and the other headers unchanged. -/
def applyAuth (token : String) (r : HttpRequest) : HttpRequest :=
  { r with headers := r.headers ++ [("authorization", token)] }

/-- `build_healthcheck`: a single GET against the given base URL with an
empty body, with credentials applied. -/
def build_healthcheck (auth : String) (base_url : String) : HttpRequest :=
  applyAuth auth { method := "GET", uri := base_url, headers := [], body := "" }

/-- The construction-time artefacts of `ChronicleUnstructuredConfig::build`
that the claims are about: the delivery base URL handed to
`ChronicleService`, and the one-shot health-check request. -/
structure SinkParts where
  endpoint : String
  healthcheck_request : HttpRequest
deriving DecidableEq, Repr

/-- `<ChronicleUnstructuredConfig as SinkConfig>::build`, restricted to the
endpoint and health-check plumbing: it computes the delivery endpoint at
path `v2/unstructuredlogentries:batchCreate` and the health-check endpoint
at path `v2/logtypes`; any `create_endpoint` error aborts construction, so
no sink is produced. -/
def ChronicleUnstructuredConfig.build (config : ChronicleUnstructuredConfig)
    (auth : String) : Except ChronicleError SinkParts := do
  let endpoint ← create_endpoint config "v2/unstructuredlogentries:batchCreate"
  let healthcheck_endpoint ← create_endpoint config "v2/logtypes"
  pure { endpoint := endpoint
         healthcheck_request := build_healthcheck auth healthcheck_endpoint }

/-- A JSON value as built by `serde_json::json!` in `encode_input`: only the
shapes that encoder produces (strings, arrays, objects with ordered fields). -/
inductive Json where
  | str (s : String)
  | arr (xs : List Json)
  | obj (fields : List (String × Json))

/-- serde_json's escaping of one character inside a JSON string literal. -/
def escapeChar (c : Char) : String :=
  if c = '"' then "\\\""
  else if c = '\\' then "\\\\"
  else if c = '\n' then "\\n"
  else if c = '\r' then "\\r"
  else if c = '\t' then "\\t"
  else if c = '\x08' then "\\b"
  else if c = '\x0c' then "\\f"
  else if c.toNat < 0x20 then
    "\\u00" ++ String.mk [Nat.digitChar (c.toNat / 16), Nat.digitChar (c.toNat % 16)]
  else String.mk [c]

/-- serde_json's rendering of a string literal, quotes included. -/
def escapeString (s : String) : String :=
  "\"" ++ String.join (s.toList.map escapeChar) ++ "\""

mutual

/-- `serde_json::to_writer`: the compact serialization of a `Json` value. -/
def serializeJson : Json → String
  | .str s => escapeString s
  | .arr xs => "[" ++ serializeArray xs ++ "]"
  | .obj fs => "\x7b" ++ serializeFields fs ++ "\x7d"

/-- Comma-separated serialization of the elements of a JSON array. -/
def serializeArray : List Json → String
  | [] => ""
  | [x] => serializeJson x
  | x :: y :: xs => serializeJson x ++ "," ++ serializeArray (y :: xs)

/-- Comma-separated serialization of the members of a JSON object. -/
def serializeFields : List (String × Json) → String
  | [] => ""
  | [(k, v)] => escapeString k ++ ":" ++ serializeJson v
  | (k, v) :: f :: fs =>
      escapeString k ++ ":" ++ serializeJson v ++ "," ++ serializeFields (f :: fs)

end

/-- A timestamp value as stored at the log's timestamp key; we carry its
`to_rfc3339_opts(SecondsFormat::AutoSi, true)` rendering. -/
structure Timestamp where
  rfc3339 : String
deriving DecidableEq, Repr

/-- A sink-side log event: its finalizer handles (zero or more opaque ids —
`EventFinalizers`), the optional value at `log_schema().timestamp_key()`,
and the content the pluggable codec serializer reads. -/
structure Event where
  finalizers : List Nat
  timestamp : Option Timestamp
  message : String
deriving DecidableEq, Repr

/-- `ChronicleEncoder`: the per-request encoder.  The pluggable codec
serializer (`codecs::Encoder`, an external collaborator with contract
`encode(event) -> bytes | error`) and the `Transformer` hook are carried as
functions; `Option.none` models an encode error. -/
structure ChronicleEncoder where
  customer_id : String
  encoder : Event → Option String
  transformer : Event → Event

/-- One entry of `encode_input`'s `filter_map` body: read the timestamp,
transform, encode (an encode error drops the event via `.ok()?`), then build
`{log_text, ts_rfc3339?}`. -/
def encodeEntry (enc : ChronicleEncoder) (event : Event) : Option Json :=
  let timestamp := event.timestamp
  (enc.encoder (enc.transformer event)).map fun bytes =>
    Json.obj (("log_text", Json.str bytes) ::
      (match timestamp with
       | some ts => [("ts_rfc3339", Json.str ts.rfc3339)]
       | Option.none => []))

/-- `ChronicleEncoder::encode_input`: the JSON object
`{customer_id, log_type, entries}` written for one batch, where `entries`
keeps only the events whose per-event encoding succeeded. -/
def encode_input (enc : ChronicleEncoder) (input : String × List Event) : Json :=
  let (partition_key, events) := input
  Json.obj [("customer_id", Json.str enc.customer_id),
            ("log_type", Json.str partition_key),
            ("entries", Json.arr (events.filterMap (encodeEntry enc)))]

/-- Modelled from the spec: `RequestMetadataBuilder`
(`src/sinks/util/metadata.rs`, not under `src/`).  Per §3 ("computed from a
batch before and after encoding") and §4.3 ("begins a RequestMetadataBuilder
capturing pre-encode size/count"), the builder captures the batch's event
count and byte size before encoding. -/
structure RequestMetadataBuilder where
  event_count : Nat
  events_byte_size : Nat
deriving DecidableEq, Repr

/-- The pre-encode byte accounting of one event (model: the UTF-8 size of
its content). -/
def eventByteSize (event : Event) : Nat :=
  event.message.utf8ByteSize

/-- `RequestMetadata::builder(&events)`: capture pre-encode count/size. -/
def RequestMetadata.builder (events : List Event) : RequestMetadataBuilder :=
  { event_count := events.length
    events_byte_size := (events.map eventByteSize).sum }

/-- `RequestMetadata`: derived accounting attached to a request. -/
structure RequestMetadata where
  event_count : Nat
  events_byte_size : Nat
  request_uncompressed_size : Nat
  request_wire_size : Nat
deriving DecidableEq, Repr

/-- `EncodeResult`: the encoded (and possibly compressed) payload together
with its byte accounting, as handed to `build_request`. -/
structure EncodeResult where
  payload : String
  uncompressed_byte_size : Nat
  compressed_byte_size : Option Nat
deriving DecidableEq, Repr

/-- Modelled from the spec: completing the builder "after encoding" with the
payload's sizes; the wire size is the transmitted (compressed if any) size. -/
def RequestMetadataBuilder.build (b : RequestMetadataBuilder) (p : EncodeResult) :
    RequestMetadata :=
  { event_count := b.event_count
    events_byte_size := b.events_byte_size
    request_uncompressed_size := p.uncompressed_byte_size
    request_wire_size := p.compressed_byte_size.getD p.uncompressed_byte_size }

/-- `ChronicleRequest`: encoded body bytes, the merged finalizers of the
source batch, and the completed metadata. -/
structure ChronicleRequest where
  body : String
  finalizers : List Nat
  metadata : RequestMetadata
deriving DecidableEq, Repr

/-- `Compression` (from `src/sinks/util`, variants as in the source). -/
inductive Compression where
  | none
  | gzip
deriving DecidableEq, Repr

/-- Modelled from the spec: the generic request builder "applies compression
to the encoded payload".  `Compression::None` is the identity; the gzip
branch is represented by a distinct marker transformation (no claim here
depends on its contents, only the `none` branch is exercised). -/
def compress : Compression → String → String
  | .none, s => s
  | .gzip, s => "\x1f\x8b" ++ s

/-- `RequestSettings`: the per-sink request-building settings. -/
structure RequestSettings where
  encoder : ChronicleEncoder

/-- `RequestSettings::compression`: always `Compression::None`. -/
def RequestSettings.compression (_ : RequestSettings) : Compression :=
  Compression.none

/-- `Event::take_finalizers` over a batch (`Vec<Event>::take_finalizers`):
every event's finalizers, merged in order into one owning collection. -/
def take_finalizers (events : List Event) : List Nat :=
  events.flatMap Event.finalizers

/-- `RequestSettings::split_input`: take all finalizers from the batch, then
start the metadata builder over the same events. -/
def split_input (input : String × List Event) :
    ((List Nat × RequestMetadataBuilder) × (String × List Event)) :=
  let (partition_key, events) := input
  let finalizers := take_finalizers events
  let metadata := RequestMetadata.builder events
  ((finalizers, metadata), (partition_key, events))

/-- `RequestSettings::build_request`: complete the metadata from the encode
result and assemble the `ChronicleRequest` around the payload bytes. -/
def build_request (metadata : List Nat × RequestMetadataBuilder)
    (payload : EncodeResult) : ChronicleRequest :=
  let (finalizers, metadata_builder) := metadata
  { body := payload.payload
    finalizers := finalizers
    metadata := metadata_builder.build payload }

/-- Modelled from the spec: the generic request-builder driver
(`src/sinks/util/request_builder.rs`, not under `src/`) per §4.3: `split`,
then `encode` via the sink's Encoder, then compression, then `build`.  The
sink-specific pieces (`split_input`, `encode_input`, `compression`,
`build_request`) are the embeddings above. -/
def buildRequestPipeline (settings : RequestSettings)
    (input : String × List Event) : ChronicleRequest :=
  let (metadata, events) := split_input input
  let payload := serializeJson (encode_input settings.encoder events)
  let compressed := compress settings.compression payload
  let result : EncodeResult :=
    { payload := compressed
      uncompressed_byte_size := payload.utf8ByteSize
      compressed_byte_size :=
        match settings.compression with
        | Compression.none => Option.none
        | _ => some compressed.utf8ByteSize }
  build_request metadata result

/-- The transport-level result of one HTTP call, abstracted: the inner
response carries the status the retry classifier later inspects. -/
structure HttpResponseInner where
  status : Nat
deriving DecidableEq, Repr

/-- A transport error (`HttpError`), abstracted to its message. -/
structure HttpError where
  message : String
deriving DecidableEq, Repr

/-- `GcsResponse`: the inner HTTP response plus the request's metadata, as
assembled by `ChronicleService::call`'s result mapping. -/
structure GcsResponse where
  inner : HttpResponseInner
  protocol : String
  metadata : RequestMetadata
deriving DecidableEq, Repr

/-- `ChronicleService::call`, request-assembly half: a POST to `base_url`
with `content-type: application/json`, `content-length` equal to the body's
byte count, the request's body bytes, and credentials applied. -/
def ChronicleService.call (auth : String) (base_url : String)
    (request : ChronicleRequest) : HttpRequest :=
  applyAuth auth
    { method := "POST"
      uri := base_url
      headers := [("content-type", "application/json"),
                  ("content-length", toString request.body.utf8ByteSize)]
      body := request.body }

/-- `ChronicleService::call`, result-mapping half: the transport outcome is
wrapped into a `GcsResponse` carrying the request's metadata unchanged;
errors pass through. -/
def ChronicleService.callResult (request : ChronicleRequest)
    (result : Except HttpError HttpResponseInner) : Except HttpError GcsResponse :=
  result.map fun inner =>
    { inner := inner, protocol := "http", metadata := request.metadata }

/-- `DeliveryOutcome`: the three-valued classification of one attempt. -/
inductive DeliveryOutcome where
  | Delivered
  | Rejected
  | Retriable
deriving DecidableEq, Repr

/-- Modelled from the spec: the Finalization Engine's
`resolve(finalizers, outcome)` (§4.5, not under `src/`): every finalizer in
the set receives the one outcome of its request. -/
def resolve (finalizers : List Nat) (outcome : DeliveryOutcome) :
    List (Nat × DeliveryOutcome) :=
  finalizers.map fun f => (f, outcome)

/-- The number of resolutions in `rs` carrying outcome `o`. -/
def countOutcome (rs : List (Nat × DeliveryOutcome)) (o : DeliveryOutcome) : Nat :=
  (rs.filter fun p => p.2 == o).length

end Chronicle

namespace Gelf

/-- GELF field-name constants from `vector_core::gelf_fields`. -/
def VERSION : String := "version"

/-- The `host` GELF field name. -/
def HOST : String := "host"

/-- The `full_message` GELF field name. -/
def FULL_MESSAGE : String := "full_message"

/-- The `level` GELF field name. -/
def LEVEL : String := "level"

/-- The `facility` GELF field name. -/
def FACILITY : String := "facility"

/-- The `line` GELF field name. -/
def LINE : String := "line"

/-- The `file` GELF field name. -/
def FILE : String := "file"

/-- The spec-pinned GELF version accepted by the deserializer. -/
def GELF_VERSION : String := "1.1"

/-- `log_schema().message_key()`. -/
def message_key : String := "message"

/-- `log_schema().timestamp_key()`. -/
def timestamp_key : String := "timestamp"

/-- A `serde_json::Value` as it appears among GELF additional fields.
Numbers split into the integer/float cases that `Value::from` distinguishes. -/
inductive JsonValue where
  | null
  | bool (b : Bool)
  | intNum (n : Int)
  | floatNum (f : Float)
  | str (s : String)
  | arr (xs : List JsonValue)
  | obj (fields : List (String × JsonValue))

/-- `serde_json::Value::is_string`. -/
def JsonValue.is_string : JsonValue → Bool
  | .str _ => true
  | _ => false

/-- `serde_json::Value::is_number`. -/
def JsonValue.is_number : JsonValue → Bool
  | .intNum _ => true
  | .floatNum _ => true
  | _ => false

/-- The type names used in the invalid-type error message. -/
def JsonValue.typeName : JsonValue → String
  | .null => "null"
  | .bool _ => "boolean"
  | .intNum _ => "number"
  | .floatNum _ => "number"
  | .str _ => "string"
  | .arr _ => "array"
  | .obj _ => "object"

/-- A UTC timestamp value: either
`NaiveDateTime::from_timestamp(trunc(ts), fract(ts) as u32)` of a GELF
`timestamp` (the raw seconds are carried), or the `Utc::now()` inserted when
the field is absent, kept symbolic. -/
inductive DateTimeUtc where
  | fromUnix (seconds : Float)
  | utcNow

/-- A vector `Value` as inserted into the log event by this deserializer. -/
inductive Value where
  | bytes (s : String)
  | integer (n : Int)
  | float (f : Float)
  | timestamp (t : DateTimeUtc)

/-- `val.into()` for an additional-field value that passed the
string-or-number check. -/
def JsonValue.toValue : JsonValue → Option Value
  | .str s => some (Value.bytes s)
  | .intNum n => some (Value.integer n)
  | .floatNum f => some (Value.float f)
  | _ => Option.none

/-- A `LogEvent`, modelled as its field map in insertion order. -/
abbrev LogEvent := List (String × Value)

/-- Map insertion: replace the value at `key` if present, else append. -/
def LogEvent.insert (log : LogEvent) (key : String) (v : Value) : LogEvent :=
  if log.any (fun p => p.1 == key) then
    log.map (fun p => if p.1 == key then (key, v) else p)
  else
    log ++ [(key, v)]

/-- `LogEvent::from_str_legacy`: a log with the message at the message key. -/
def LogEvent.from_str_legacy (msg : String) : LogEvent :=
  [(message_key, Value.bytes msg)]

/-- The `GelfMessage` struct that serde deserializes a frame into.
`version`, `host` and `short_message` are required; the rest optional;
unknown keys are collected into `additional_fields`. -/
structure GelfMessage where
  version : String
  host : String
  short_message : String
  full_message : Option String
  timestamp : Option Float
  level : Option Nat
  facility : Option String
  line : Option Float
  file : Option String
  additional_fields : Option (List (String × JsonValue))

/-- Modelled from the source comment for `crate::VALID_FIELD_REGEX` (the
regex itself lives in `lib/codecs/src/lib.rs`, not under `src/`): field
names may contain only word characters (letters, numbers, underscores),
dashes and dots. -/
def validFieldChar (c : Char) : Bool :=
  c.isAlphanum || c == '_' || c == '-' || c == '.'

/-- Whether `VALID_FIELD_REGEX` matches the whole field name. -/
def validFieldName (s : String) : Bool :=
  s.toList.all validFieldChar

/-- The additional-fields loop of `message_to_event`: skip `_id`, reject
names without a leading underscore, reject names failing the field regex,
insert string/number values, and reject every other value type. -/
def processAdditionalFields (log : LogEvent) :
    List (String × JsonValue) → Except String LogEvent
  | [] => .ok log
  | (key, val) :: rest =>
    if key == "_id" then
      processAdditionalFields log rest
    else if ¬ key.startsWith "_" then
      .error ("\x27" ++ key ++ "\x27 field is invalid. " ++
        "Additional field names must be prefixed with an underscore.")
    else if ¬ validFieldName key then
      .error ("\x27" ++ key ++ "\x27 field contains invalid characters. " ++
        "Field names may contain only letters, numbers, underscores, dashes and dots.")
    else
      match val.toValue with
      | some v => processAdditionalFields (log.insert key v) rest
      | Option.none =>
        .error ("The value type for field " ++ key ++ " is an invalid type (" ++
          val.typeName ++ "). Additional field values should be either strings or numbers.")

/-- `GelfDeserializer::message_to_event`: build the log from
`short_message`, reject any version other than `GELF_VERSION` before any
other field is considered, then insert the remaining fields and process the
additional fields. -/
def message_to_event (parsed : GelfMessage) : Except String LogEvent :=
  let log := LogEvent.from_str_legacy parsed.short_message
  if parsed.version ≠ GELF_VERSION then
    .error (VERSION ++ " does not match GELF spec version (" ++ GELF_VERSION ++ ")")
  else
    let log := log.insert VERSION (Value.bytes parsed.version)
    let log := log.insert HOST (Value.bytes parsed.host)
    let log :=
      match parsed.full_message with
      | some full_message => log.insert FULL_MESSAGE (Value.bytes full_message)
      | Option.none => log
    let log :=
      match parsed.timestamp with
      | some ts => log.insert timestamp_key (Value.timestamp (DateTimeUtc.fromUnix ts))
      | Option.none => log.insert timestamp_key (Value.timestamp DateTimeUtc.utcNow)
    let log :=
      match parsed.level with
      | some level => log.insert LEVEL (Value.integer level)
      | Option.none => log
    let log :=
      match parsed.facility with
      | some facility => log.insert FACILITY (Value.bytes facility)
      | Option.none => log
    let log :=
      match parsed.line with
      | some line => log.insert LINE (Value.float line)
      | Option.none => log
    let log :=
      match parsed.file with
      | some file => log.insert FILE (Value.bytes file)
      | Option.none => log
    match parsed.additional_fields with
    | some add => processAdditionalFields log add
    | Option.none => .ok log

/-- `GelfDeserializer::parse`: the UTF-8 + `serde_json` stage is an external
collaborator, so its result (the parsed `GelfMessage`, or its error) is the
input; the embedded part applies `message_to_event` and wraps the single
event in a list. -/
def parse (parsed : Except String GelfMessage) : Except String (List LogEvent) := do
  let m ← parsed
  let event ← message_to_event m
  pure [event]

end Gelf

namespace VectorV1

/-- `proto::EventWrapper`: a decoded protobuf event wrapper, abstract. -/
structure EventWrapper where
  data : String
deriving DecidableEq, Repr

/-- An `Event` as produced by `Event::from(EventWrapper)`, abstract. -/
structure Event where
  wrapper : EventWrapper
deriving DecidableEq, Repr

/-- `Event::from`. -/
def eventFrom (w : EventWrapper) : Event :=
  { wrapper := w }

/-- A `prost::DecodeError`, abstracted to its message. -/
structure DecodeError where
  message : String
deriving DecidableEq, Repr

/-- `VectorDeserializer::parse`: `proto::EventWrapper::decode(bytes)` is the
external prost collaborator, so its result is the input; the embedded part
maps `Event::from` over it and returns the singleton event on success or the
error unchanged on failure. -/
def parse (decoded : Except DecodeError EventWrapper) :
    Except DecodeError (List Event) :=
  match decoded.map eventFrom with
  | .ok event => .ok [event]
  | .error e => .error e

end VectorV1

namespace Chronicle

/-- A concrete instantiation of the pluggable codec, for witnesses and
counterexamples: serializes the event content, failing on the content
"bad" (an event the codec cannot encode). -/
def sampleCodec (event : Event) : Option String :=
  if event.message == "bad" then Option.none else some event.message

/-- Request settings over `sampleCodec` with an identity transformer. -/
def sampleSettings : RequestSettings :=
  { encoder := { customer_id := "cust-1"
                 encoder := sampleCodec
                 transformer := fun e => e } }

/-- A valid event carrying one finalizer. -/
def goodEvent : Event :=
  { finalizers := [1], timestamp := Option.none, message := "m1" }

/-- An event whose per-event encoding fails, carrying one finalizer. -/
def badEvent : Event :=
  { finalizers := [2], timestamp := Option.none, message := "bad" }

/-- A concrete completed metadata record, for witnesses. -/
def sampleMetadata : RequestMetadata :=
  { event_count := 2
    events_byte_size := 5
    request_uncompressed_size := 10
    request_wire_size := 10 }

/-- A concrete request carrying finalizers, for the frame witness. -/
def reqWithFinalizers : ChronicleRequest :=
  { body := "b", finalizers := [1, 2], metadata := sampleMetadata }

/-- The same request with its finalizers removed, for the frame witness. -/
def reqWithoutFinalizers : ChronicleRequest :=
  { body := "b", finalizers := [], metadata := sampleMetadata }

end Chronicle

namespace Gelf

/-- A GELF message whose version is "1.2" and whose other fields include an
additional field that would itself fail the underscore validation, for the
version-check witness. -/
def badVersionMessage : GelfMessage :=
  { version := "1.2"
    host := "example.org"
    short_message := "foobar"
    full_message := Option.none
    timestamp := Option.none
    level := some 1
    facility := Option.none
    line := Option.none
    file := Option.none
    additional_fields := some [("bad-key", JsonValue.str "raboof")] }

end Gelf

namespace Chronicle

/-- Helper: a leading block of copies of `c` is removed whole by
`dropWhile (· == c)`. -/
theorem dropWhile_replicate_append (c : Char) (n : Nat) (l : List Char) :
    (List.replicate n c ++ l).dropWhile (fun ch => ch == c)
      = l.dropWhile (fun ch => ch == c) := by
  induction n with
  | zero => rfl
  | succ n ih => simp [List.replicate_succ, List.dropWhile_cons, ih]

/-- Helper: appending trailing copies of `c` does not change
`trimEndMatches · c`. -/
theorem trimEndMatches_append_replicate (s : String) (c : Char) (n : Nat) :
    trimEndMatches (s ++ String.mk (List.replicate n c)) c = trimEndMatches s c := by
  unfold trimEndMatches
  have h1 : (s ++ String.mk (List.replicate n c)).toList
      = s.toList ++ List.replicate n c := String.data_append s _
  rw [h1, List.reverse_append, List.reverse_replicate, dropWhile_replicate_append]

/-- C2: `create_endpoint` errors exactly when both a literal endpoint and a
region are configured (`BothRegionAndEndpoint`) or neither is
(`RegionOrEndpoint`); with exactly one of the two it returns the URL built
from that one; and a `create_endpoint` error aborts `build`, so construction
fails before a sink exists. -/
theorem create_endpoint_exclusive_selection (ep : String) (r : Region)
    (c lt path auth : String) :
    (create_endpoint
        { endpoint := some ep, region := Option.none,
          customer_id := c, log_type := lt } path
      = .ok (trimEndMatches ep '/' ++ "/" ++ path)) ∧
    (create_endpoint
        { endpoint := Option.none, region := some r,
          customer_id := c, log_type := lt } path
      = .ok (r.endpoint ++ "/" ++ path)) ∧
    (create_endpoint
        { endpoint := some ep, region := some r,
          customer_id := c, log_type := lt } path
      = .error ChronicleError.BothRegionAndEndpoint) ∧
    (create_endpoint
        { endpoint := Option.none, region := Option.none,
          customer_id := c, log_type := lt } path
      = .error ChronicleError.RegionOrEndpoint) ∧
    (ChronicleUnstructuredConfig.build
        { endpoint := some ep, region := some r,
          customer_id := c, log_type := lt } auth
      = .error ChronicleError.BothRegionAndEndpoint) ∧
    (ChronicleUnstructuredConfig.build
        { endpoint := Option.none, region := Option.none,
          customer_id := c, log_type := lt } auth
      = .error ChronicleError.RegionOrEndpoint) :=
  ⟨rfl, rfl, rfl, rfl, rfl, rfl⟩

/-- C8: with a literal endpoint and no region, `create_endpoint` strips all
trailing slashes from the endpoint before appending the path, so endpoints
that differ only in trailing slashes yield identical URLs; appending any
number of trailing slashes leaves the trimmed base unchanged. -/
theorem create_endpoint_ignores_trailing_slashes (e1 e2 c lt path : String)
    (n : Nat) (h : trimEndMatches e1 '/' = trimEndMatches e2 '/') :
    create_endpoint
        { endpoint := some e1, region := Option.none,
          customer_id := c, log_type := lt } path
      = create_endpoint
          { endpoint := some e2, region := Option.none,
            customer_id := c, log_type := lt } path ∧
    trimEndMatches (e1 ++ String.mk (List.replicate n '/')) '/'
      = trimEndMatches e1 '/' := by
  constructor
  · simp only [create_endpoint, h]
  · exact trimEndMatches_append_replicate e1 '/' n

/-- Witness for C8 at a concrete endpoint pair differing in two trailing
slashes. -/
theorem create_endpoint_ignores_trailing_slashes_witness :
    create_endpoint
        { endpoint := some "https://chronicle.example.com//",
          region := Option.none, customer_id := "c", log_type := "t" } "v2/logtypes"
      = create_endpoint
          { endpoint := some "https://chronicle.example.com",
            region := Option.none, customer_id := "c", log_type := "t" } "v2/logtypes" :=
  (create_endpoint_ignores_trailing_slashes "https://chronicle.example.com//"
    "https://chronicle.example.com" "c" "t" "v2/logtypes" 0 (by decide)).1

/-- C6: the request builder's compression is `Compression::None`, so the
request body transmitted is exactly the encoded JSON payload and the wire
size recorded in the metadata is that payload's byte size. -/
theorem compression_is_none_body_uncompressed (settings : RequestSettings)
    (k : String) (events : List Event) :
    settings.compression = Compression.none ∧
    (buildRequestPipeline settings (k, events)).body
      = serializeJson (encode_input settings.encoder (k, events)) ∧
    (buildRequestPipeline settings (k, events)).metadata.request_wire_size
      = (serializeJson (encode_input settings.encoder (k, events))).utf8ByteSize :=
  ⟨rfl, rfl, rfl⟩

end Chronicle

namespace Chronicle

/-- C3: the body of every request produced by the pipeline is exactly the
serialization of one JSON object with fields `customer_id` (the configured
customer id), `log_type` (the partition key) and `entries` (one
`{log_text, ts_rfc3339?}` object per surviving event, `ts_rfc3339` present
exactly when the event has a timestamp); and the delivery call is a POST
whose `content-type` header is `application/json`, whose `content-length`
header is the byte length of the body, and whose body is the request body. -/
theorem request_body_and_http_shape (settings : RequestSettings) (k : String)
    (events : List Event) (auth base_url : String) :
    (buildRequestPipeline settings (k, events)).body
      = serializeJson (Json.obj
          [("customer_id", Json.str settings.encoder.customer_id),
           ("log_type", Json.str k),
           ("entries", Json.arr (events.filterMap fun event =>
              (settings.encoder.encoder (settings.encoder.transformer event)).map
                fun bytes =>
                  Json.obj (("log_text", Json.str bytes) ::
                    (match event.timestamp with
                     | some ts => [("ts_rfc3339", Json.str ts.rfc3339)]
                     | Option.none => []))))]) ∧
    (ChronicleService.call auth base_url
        (buildRequestPipeline settings (k, events))).method = "POST" ∧
    (ChronicleService.call auth base_url
        (buildRequestPipeline settings (k, events))).body
      = (buildRequestPipeline settings (k, events)).body ∧
    ("content-type", "application/json")
      ∈ (ChronicleService.call auth base_url
          (buildRequestPipeline settings (k, events))).headers ∧
    ("content-length",
        toString (buildRequestPipeline settings (k, events)).body.utf8ByteSize)
      ∈ (ChronicleService.call auth base_url
          (buildRequestPipeline settings (k, events))).headers := by
  refine ⟨rfl, rfl, rfl, ?_, ?_⟩ <;> simp [ChronicleService.call, applyAuth]

/-- C5: the delivery service is frame-preserving: the outbound HTTP request
body is exactly the request's body bytes; two requests agreeing on body and
metadata produce identical outbound requests and identical mapped results
(so finalizers are never read, let alone mutated); and on transport success
the response carries the request's metadata unchanged. -/
theorem chronicle_service_call_frame (auth base_url : String)
    (req req' : ChronicleRequest) (result : Except HttpError HttpResponseInner)
    (hbody : req.body = req'.body) (hmeta : req.metadata = req'.metadata) :
    (ChronicleService.call auth base_url req).body = req.body ∧
    ChronicleService.call auth base_url req
      = ChronicleService.call auth base_url req' ∧
    ChronicleService.callResult req result
      = ChronicleService.callResult req' result ∧
    ∀ inner, result = Except.ok inner →
      ChronicleService.callResult req result
        = Except.ok { inner := inner, protocol := "http", metadata := req.metadata } := by
  refine ⟨rfl, ?_, ?_, ?_⟩
  · simp [ChronicleService.call, applyAuth, hbody]
  · simp [ChronicleService.callResult, hmeta]
  · rintro inner rfl
    rfl

/-- Witness for C5: the call treats a request with finalizers and the same
request stripped of finalizers identically. -/
theorem chronicle_service_call_frame_witness :
    ChronicleService.call "tok" "https://e" reqWithFinalizers
      = ChronicleService.call "tok" "https://e" reqWithoutFinalizers :=
  (chronicle_service_call_frame "tok" "https://e" reqWithFinalizers
    reqWithoutFinalizers (Except.error { message := "down" }) rfl rfl).2.1

/-- C7: successful sink construction produces a health-check request that is
a GET with empty body against the `v2/logtypes` endpoint, distinct from the
`v2/unstructuredlogentries:batchCreate` delivery endpoint over the same
base; the per-event delivery path instead issues POSTs to the delivery
endpoint. -/
theorem healthcheck_distinct_endpoint (config : ChronicleUnstructuredConfig)
    (auth : String) (parts : SinkParts)
    (h : config.build auth = Except.ok parts) :
    parts.healthcheck_request.method = "GET" ∧
    parts.healthcheck_request.body = "" ∧
    (∃ base, parts.endpoint = base ++ "/" ++ "v2/unstructuredlogentries:batchCreate" ∧
       parts.healthcheck_request.uri = base ++ "/" ++ "v2/logtypes") ∧
    parts.healthcheck_request.uri ≠ parts.endpoint ∧
    (∀ req, (ChronicleService.call auth parts.endpoint req).method = "POST" ∧
       (ChronicleService.call auth parts.endpoint req).uri = parts.endpoint) := by
  have hne : ∀ base : String,
      base ++ "/" ++ "v2/logtypes"
        ≠ base ++ "/" ++ "v2/unstructuredlogentries:batchCreate" := by
    intro base heq
    have hlen := congrArg String.length heq
    rw [String.length_append, String.length_append,
        String.length_append, String.length_append] at hlen
    have e1 : ("v2/logtypes" : String).length = 11 := rfl
    have e2 : ("v2/unstructuredlogentries:batchCreate" : String).length = 37 := rfl
    omega
  match hep : config.endpoint, hr : config.region with
  | some ep, Option.none =>
    rw [ChronicleUnstructuredConfig.build] at h
    simp only [create_endpoint, hep, hr] at h
    cases h
    exact ⟨rfl, rfl, ⟨trimEndMatches ep '/', rfl, rfl⟩, hne _, fun req => ⟨rfl, rfl⟩⟩
  | Option.none, some r =>
    rw [ChronicleUnstructuredConfig.build] at h
    simp only [create_endpoint, hep, hr] at h
    cases h
    exact ⟨rfl, rfl, ⟨r.endpoint, rfl, rfl⟩, hne _, fun req => ⟨rfl, rfl⟩⟩
  | some ep, some r =>
    rw [ChronicleUnstructuredConfig.build] at h
    simp only [create_endpoint, hep, hr] at h
    exact Except.noConfusion h
  | Option.none, Option.none =>
    rw [ChronicleUnstructuredConfig.build] at h
    simp only [create_endpoint, hep, hr] at h
    exact Except.noConfusion h

/-- Witness for C7 at a concrete configuration with a literal endpoint. -/
theorem healthcheck_distinct_endpoint_witness :
    ∃ parts : SinkParts,
      ChronicleUnstructuredConfig.build
        { endpoint := some "https://chronicle.example.com",
          region := Option.none, customer_id := "c", log_type := "t" } "tok"
        = Except.ok parts ∧
      parts.healthcheck_request.method = "GET" ∧
      parts.healthcheck_request.uri ≠ parts.endpoint := by
  have h : ChronicleUnstructuredConfig.build
      { endpoint := some "https://chronicle.example.com",
        region := Option.none, customer_id := "c", log_type := "t" } "tok"
      = Except.ok
          { endpoint := "https://chronicle.example.com/v2/unstructuredlogentries:batchCreate",
            healthcheck_request :=
              { method := "GET",
                uri := "https://chronicle.example.com/v2/logtypes",
                headers := [("authorization", "tok")], body := "" } } := rfl
  exact ⟨_, h, (healthcheck_distinct_endpoint _ "tok" _ h).1,
    (healthcheck_distinct_endpoint _ "tok" _ h).2.2.2.1⟩

end Chronicle

namespace Chronicle

/-- Helper: resolving a finalizer set gives every finalizer exactly the one
outcome of its request. -/
theorem countOutcome_resolve (fs : List Nat) (o o' : DeliveryOutcome) :
    countOutcome (resolve fs o) o' = if o = o' then fs.length else 0 := by
  induction fs with
  | nil => simp [countOutcome, resolve]
  | cons f fs ih =>
    by_cases h : o = o'
    · subst h
      simp only [countOutcome, resolve, List.map_cons, List.filter_cons] at ih ⊢
      simp_all
    · have hb : (o == o') = false := by
        cases o <;> cases o' <;> simp_all
      simp only [countOutcome, resolve, List.map_cons, List.filter_cons] at ih ⊢
      simp_all

/-- Helper: the payload keeps exactly the events whose per-event encoding
succeeded. -/
theorem length_filterMap_encodeEntry (enc : ChronicleEncoder) (events : List Event) :
    (events.filterMap (encodeEntry enc)).length
      = (events.filter fun event =>
          (enc.encoder (enc.transformer event)).isSome).length := by
  induction events with
  | nil => rfl
  | cons e es ih =>
    cases he : enc.encoder (enc.transformer e) with
    | none => simp [List.filterMap_cons, List.filter_cons, encodeEntry, he, ih]
    | some b => simp [List.filterMap_cons, List.filter_cons, encodeEntry, he, ih]

/-- C1 (amended): a per-event encode failure drops the event from the
payload and encoding continues, but the dropped event's finalizers are not
resolved `Rejected` at encode time: `split_input` merged every event's
finalizers into the request before encoding, so on transport success all of
the batch's finalizers — the dropped event's included — resolve `Delivered`
and none resolve `Rejected`; the batch is never aborted. -/
theorem encode_failures_share_batch_outcome (settings : RequestSettings)
    (k : String) (events : List Event) :
    (buildRequestPipeline settings (k, events)).finalizers
      = take_finalizers events ∧
    (events.filterMap (encodeEntry settings.encoder)).length
      = (events.filter fun event =>
          (settings.encoder.encoder (settings.encoder.transformer event)).isSome).length ∧
    countOutcome
        (resolve (buildRequestPipeline settings (k, events)).finalizers
          DeliveryOutcome.Delivered) DeliveryOutcome.Delivered
      = (take_finalizers events).length ∧
    countOutcome
        (resolve (buildRequestPipeline settings (k, events)).finalizers
          DeliveryOutcome.Delivered) DeliveryOutcome.Rejected = 0 := by
  refine ⟨rfl, length_filterMap_encodeEntry _ _, ?_, ?_⟩
  · rw [countOutcome_resolve]
    rfl
  · rw [countOutcome_resolve]
    rfl

/-- C1 (counterexample): a batch of one valid event and one event whose
encoding fails, each carrying one finalizer, under transport success: the
payload keeps only the valid entry, but both finalizers resolve `Delivered`
and none resolves `Rejected` — not the claimed one `Rejected`. -/
theorem encode_drop_counterexample :
    countOutcome
        (resolve (buildRequestPipeline sampleSettings ("LOG", [goodEvent, badEvent])).finalizers
          DeliveryOutcome.Delivered) DeliveryOutcome.Rejected = 0 ∧
    countOutcome
        (resolve (buildRequestPipeline sampleSettings ("LOG", [goodEvent, badEvent])).finalizers
          DeliveryOutcome.Delivered) DeliveryOutcome.Delivered = 2 ∧
    ([goodEvent, badEvent].filterMap (encodeEntry sampleSettings.encoder)).length = 1 := by
  refine ⟨?_, ?_, ?_⟩ <;> rfl

/-- C4 (amended): the completed metadata counts every event of the batch as
captured at `split_input` time — dropped events included — while the payload
byte sizes reflect the encoded (surviving) payload. -/
theorem metadata_counts_full_batch (settings : RequestSettings) (k : String)
    (events : List Event) :
    (buildRequestPipeline settings (k, events)).metadata.event_count
      = events.length ∧
    (buildRequestPipeline settings (k, events)).metadata.request_uncompressed_size
      = (serializeJson (encode_input settings.encoder (k, events))).utf8ByteSize :=
  ⟨rfl, rfl⟩

/-- C4 (counterexample): with one of two events dropped by encoding, the
metadata still reports an event count of 2, not the surviving count 1. -/
theorem metadata_event_count_counterexample :
    (buildRequestPipeline sampleSettings ("LOG", [goodEvent, badEvent])).metadata.event_count = 2 ∧
    ([goodEvent, badEvent].filterMap (encodeEntry sampleSettings.encoder)).length = 1 ∧
    (buildRequestPipeline sampleSettings ("LOG", [goodEvent, badEvent])).metadata.event_count
      ≠ ([goodEvent, badEvent].filterMap (encodeEntry sampleSettings.encoder)).length := by
  refine ⟨rfl, rfl, by decide⟩

end Chronicle

namespace Gelf

/-- C9: whenever the parsed message's `version` field differs from `"1.1"`,
`message_to_event` rejects it — before any other field is examined, so the
other fields may be arbitrary (even ones that would themselves be invalid) —
and `parse` therefore returns that error and produces no event. -/
theorem gelf_version_mismatch_rejected (m : GelfMessage)
    (h : m.version ≠ GELF_VERSION) :
    message_to_event m
      = .error (VERSION ++ " does not match GELF spec version ("
          ++ GELF_VERSION ++ ")") ∧
    Gelf.parse (.ok m)
      = .error (VERSION ++ " does not match GELF spec version ("
          ++ GELF_VERSION ++ ")") := by
  have h1 : message_to_event m
      = .error (VERSION ++ " does not match GELF spec version ("
          ++ GELF_VERSION ++ ")") := by
    unfold message_to_event
    rw [if_pos h]
  refine ⟨h1, ?_⟩
  simp only [Gelf.parse, Except.bind, bind, h1]

/-- Witness for C9: a message with version "1.2" is rejected with the
version error even though it also carries an additional field that would
fail the underscore check. -/
theorem gelf_version_mismatch_rejected_witness :
    Gelf.parse (.ok badVersionMessage)
      = .error (VERSION ++ " does not match GELF spec version ("
          ++ GELF_VERSION ++ ")") :=
  (gelf_version_mismatch_rejected badVersionMessage (by decide)).2

end Gelf

namespace VectorV1

/-- C10: `parse` returns `Ok` with exactly the one event decoded from the
`EventWrapper` protobuf when decoding succeeds, returns the decode error
unchanged when it fails, and never returns an empty or multi-event list. -/
theorem vector_parse_singleton (decoded : Except DecodeError EventWrapper) :
    (∀ w, decoded = .ok w → parse decoded = .ok [eventFrom w]) ∧
    (∀ e, decoded = .error e → parse decoded = .error e) ∧
    (∀ events, parse decoded = .ok events → events.length = 1) := by
  refine ⟨?_, ?_, ?_⟩
  · rintro w rfl
    rfl
  · rintro e rfl
    rfl
  · intro events h
    cases decoded with
    | ok w =>
      simp only [parse, Except.map, Except.ok.injEq] at h
      subst h
      rfl
    | error e =>
      simp only [parse, Except.map] at h
      exact Except.noConfusion h

/-- Witness for C10: a successful decode yields exactly one event. -/
theorem vector_parse_singleton_witness :
    parse (Except.ok { data := "frame" })
      = Except.ok [eventFrom { data := "frame" }] :=
  (vector_parse_singleton (Except.ok { data := "frame" })).1 _ rfl

end VectorV1
